import Mathlib

/-!
Verification of the configuration-normalization and environment-installation
core of `cpd_software_env.py` (package `custom_lib`).

The Python functions are shallowly embedded as executable Lean definitions:
  * configuration documents are association lists of string keys to `PyVal`
    values (Python dicts preserve insertion order, so an association list with
    distinct keys models them exactly);
  * `pathlib` operations are modelled on plain strings with POSIX semantics
    (joining with an absolute right operand discards the left operand, empty
    and `.` components are dropped);
  * raised Python exceptions become the `PyErr` error of an `Except` result;
  * the process-global state touched by the installer (`sys.path`, the
    `PkgMsgs` message sink, lines written with plain `print`, and the
    `AssetsDownloadPending` global) is threaded explicitly as `InstState`;
  * external effects (the `pip` subprocess, the network download inside
    `_download_assets`) are parameters/recorded effects: the subprocess is a
    function from the generated command to its exit status and combined
    output, and a reached `_download_assets` call is recorded together with
    the connection dictionary and asset list it was given.
-/

namespace CpdSwEnv

/-- Values occurring in a parsed configuration document (strings, booleans,
lists and string-keyed dictionaries, as produced by the yaml/json readers). -/
inductive PyVal where
  | str (s : String)
  | bool (b : Bool)
  | list (xs : List PyVal)
  | dict (kvs : List (String × PyVal))

/-- A Python dictionary with string keys, in insertion order. -/
abbrev Dict := List (String × PyVal)

/-- `d.get(k)`: first binding of `k`, if any. -/
def dictGet (kvs : Dict) (k : String) : Option PyVal :=
  match kvs with
  | [] => none
  | (k', v) :: rest => if k' = k then some v else dictGet rest k

/-- `d[k] = v`: update in place when the key exists (keeping its position),
append at the end otherwise — Python dict insertion-order semantics. -/
def dictSet (kvs : Dict) (k : String) (v : PyVal) : Dict :=
  match kvs with
  | [] => [(k, v)]
  | (k', v') :: rest => if k' = k then (k, v) :: rest else (k', v') :: dictSet rest k v

/-- `d.pop(k)` (the removal part; the returned value is read via `dictGet`). -/
def dictPop (kvs : Dict) (k : String) : Dict :=
  kvs.filter (fun kv => !(kv.1 == k))

/-- Python truthiness of a value: empty strings, empty lists, empty dicts and
`False` are falsy. -/
def PyVal.truthy : PyVal → Bool
  | .str s => !(s == "")
  | .bool b => b
  | .list xs => !xs.isEmpty
  | .dict kvs => !kvs.isEmpty

/-- Truthiness of `d.get(k)`: a missing key (Python `None`) is falsy. -/
def truthyOpt : Option PyVal → Bool
  | none => false
  | some v => v.truthy

/-- Raised Python exceptions, as they can occur in the embedded code. -/
inductive PyErr where
  | assertFalseAfterPrint (printed : String)
      -- a branch that prints `printed` and then runs a bare `assert False`
  | assertFailed (cond : String)
      -- a bare `assert cond` whose condition is falsy (`cond` describes it)
  | assertMsg (msg : String)
      -- `assert cond, msg` with a falsy condition
  | valueError (msg : String)
  | attributeError (msg : String)
  | keyError (k : String)
  | typeError (msg : String)
  | exception (msg : String) (attached : String)
      -- `raise Exception(msg, attached)`

/- ## Path model (POSIX `pathlib` on strings) -/

/-- Split a character list at every occurrence of `c`. -/
def splitOnChar (c : Char) : List Char → List (List Char)
  | [] => [[]]
  | x :: xs =>
      let r := splitOnChar c xs
      if x = c then [] :: r
      else match r with
        | [] => [[x]]
        | y :: ys => (x :: y) :: ys

/-- `pre` is a prefix of `s` (Python `s.startswith(pre)`), computed
structurally over the character lists. -/
def startsWithStr (s pre : String) : Bool :=
  List.isPrefixOf pre.toList s.toList

/-- The components of a path, with empty and `.` segments dropped
(`PurePosixPath` normalization). -/
def pathParts (s : String) : List String :=
  ((splitOnChar '/' s.toList).map (fun cs => String.mk cs)).filter
    (fun c => !(c == "") && !(c == "."))

/-- Whether the path is absolute. -/
def isAbsPath (s : String) : Bool := startsWithStr s "/"

/-- Render a parsed path back to a string, as `str(PurePosixPath(...))`. -/
def renderPath (abs : Bool) (parts : List String) : String :=
  if abs then "/" ++ String.intercalate "/" parts
  else if parts.isEmpty then "." else String.intercalate "/" parts

/-- `str(Path(s))`: parse and re-render. -/
def normPath (s : String) : String := renderPath (isAbsPath s) (pathParts s)

/-- `str(Path(a) / b)`: joining with an absolute `b` discards `a`. -/
def pathJoin (a b : String) : String :=
  if isAbsPath b then renderPath true (pathParts b)
  else renderPath (isAbsPath a) (pathParts a ++ pathParts b)

/-- `Path(s).name`: the final component. -/
def pyBasename (s : String) : String := (pathParts s).getLastD ""

/-- Index of the last `'.'` in a character list, if any. -/
def lastDotIdx (cs : List Char) : Option Nat :=
  ((List.range cs.length).filter (fun i => cs.get? i == some '.')).getLast?

/-- `Path(s).suffix`: the final extension of the last component; empty when the
last dot is leading or trailing (pathlib's `0 < i < len(name) - 1` rule). -/
def pySuffix (s : String) : String :=
  let name := pyBasename s
  let cs := name.toList
  match lastDotIdx cs with
  | some i => if 0 < i ∧ i < cs.length - 1 then String.mk (cs.drop i) else ""
  | none => ""

/-- `Path(s).stem`: the last component with its final extension removed. -/
def pyStem (s : String) : String :=
  let name := pyBasename s
  let cs := name.toList
  match lastDotIdx cs with
  | some i => if 0 < i ∧ i < cs.length - 1 then String.mk (cs.take i) else name
  | none => name

/-- `str(Path(s).parent)`: drop the last component (`"."` for bare names). -/
def pyParent (s : String) : String :=
  renderPath (isAbsPath s) (pathParts s).dropLast

/-- Python `repr` of a value, as interpolated by f-strings for containers. -/
def pyRepr : PyVal → String
  | .str s => "'" ++ s ++ "'"
  | .bool b => if b then "True" else "False"
  | .list xs => "[" ++ String.intercalate ", " (xs.attach.map (fun t => pyRepr t.1)) ++ "]"
  | .dict kvs =>
      "\x7b" ++
        String.intercalate ", "
          (kvs.attach.map (fun t => "'" ++ t.1.1 ++ "': " ++ pyRepr t.1.2)) ++
      "\x7d"
decreasing_by
  all_goals
    simp_wf
    first
    | (have h9 := List.sizeOf_lt_of_mem t.2; omega)
    | (rcases t with ⟨⟨a, b⟩, hmem⟩
       have := List.sizeOf_lt_of_mem hmem
       simp only [Prod.mk.sizeOf_spec] at this
       simp only []
       omega)

/-- The rendering of a value inside an f-string (`str`, not `repr`, at the
top level: a bare string is interpolated without quotes). -/
def pyFmt : PyVal → String
  | .str s => s
  | v => pyRepr v

/-- `f"...{d.get(k1, d.get(k2))}..."` rendering, with `None` for a miss. -/
def pyFmtOpt : Option PyVal → String
  | none => "None"
  | some v => pyFmt v

/- ## `_normalize_swenv` -/

/-- The reserved path name space of the tool's own packaging
(`"cpd_software_env"`). -/
def reservedName : String := "cpd_software_env"

/-- The `ValueError` message raised for a reserved path, with `kind` one of
`"file"`, `"module"`, `"asset"` (from the three f-strings in the source). -/
def reservedMsg (kind path : String) : String :=
  "The prefix '" ++ reservedName ++ "' is reserved. Rename " ++ kind ++ " '" ++ path ++ "'"

/-- The message printed before `assert False` when both `file` and `files`
are present (also printed, verbatim, by the `module`/`modules` branch). -/
def fileFilesErrText : String :=
  "Error: you can use either key 'file' or 'files' but not both together."

/-- The message printed before `assert False` when both `asset` and `assets`
are present. -/
def assetAssetsErrText : String :=
  "Error: you can use either key 'asset' or 'assets' but not both together."

/-- One singular→plural folding step of `_normalize_swenv`: when the singular
key is present, fail (print `errText`, then `assert False`) if the plural key
is also present, otherwise pop the singular key and bind its value to the
plural key (appended at the end, since the plural key was absent). -/
def foldKey (sg pl errText : String) (swenv : Dict) : Except PyErr Dict :=
  match dictGet swenv sg with
  | none => .ok swenv
  | some v =>
      if (dictGet swenv pl).isSome then .error (.assertFalseAfterPrint errText)
      else .ok (dictSet (dictPop swenv sg) pl v)

/-- The list-coercion step: wrap a present non-list value of key `k` into a
one-element list, in place. -/
def coerceListKey (k : String) (swenv : Dict) : Dict :=
  match dictGet swenv k with
  | some (.list _) => swenv
  | some v => dictSet swenv k (.list [v])
  | none => swenv

/-- Body of the `files` loop of `_normalize_swenv` for one entry (also used,
with `kind := "module"`, for the verbatim-duplicated `modules` loop).
A plain string `s` expands to `{name: s, path: s, root: str(swenv_path)}`;
a mapping must have a truthy `path` (bare `assert` otherwise) and gets
`root` set to `str(swenv_path / item.get("path", ""))` — the source joins
the entry's `path`, not its `root`, here.  Afterwards a `path` beginning
with the reserved name raises `ValueError`.  `swenv_path` is the absolutized
base directory (`swenv_path.absolute()` applied by the caller). -/
def normFileEntry (kind : String) (swenv_path : String) (item : PyVal) :
    Except PyErr PyVal :=
  match item with
  | .str s =>
      if startsWithStr s reservedName then .error (.valueError (reservedMsg kind s))
      else .ok (.dict [("name", .str s), ("path", .str s), ("root", .str swenv_path)])
  | .dict kvs =>
      if truthyOpt (dictGet kvs "path") then
        match dictGet kvs "path" with
        | some (.str p) =>
            if startsWithStr p reservedName then .error (.valueError (reservedMsg kind p))
            else .ok (.dict (dictSet kvs "root" (.str (pathJoin swenv_path p))))
        | _ =>
            -- a truthy non-string `path` makes `swenv_path / path` raise
            .error (.typeError "argument should be a str or an os.PathLike object")
      else .error (.assertFailed "item.get(\x22path\x22)")
  | _ => .error (.assertFailed "isinstance(item, dict)")

/-- Body of the `assets` loop of `_normalize_swenv` for one entry: a plain
string with suffix `.py` expands to a `script` asset named by its stem, any
other string to a `data_asset`; mappings are kept as given.  The loop then
evaluates `assets[idx].get("path").startswith("cpd_software_env")`
unconditionally, so a mapping without a `path` key raises `AttributeError`
on the `None` result of `.get`. -/
def normAssetEntry (item : PyVal) : Except PyErr PyVal :=
  match
    (match item with
     | .str s =>
         if pySuffix s == ".py" then
           Except.ok (PyVal.dict
             [("name", .str (pyStem s)), ("path", .str s), ("asset_type", .str "script")])
         else
           Except.ok (PyVal.dict
             [("name", .str s), ("path", .str s), ("asset_type", .str "data_asset")])
     | .dict kvs => Except.ok (PyVal.dict kvs)
     | _ => Except.error (PyErr.assertFailed "isinstance(item, dict)"))
  with
  | .error e => .error e
  | .ok expanded =>
      match expanded with
      | .dict kvs =>
          match dictGet kvs "path" with
          | some (.str p) =>
              if startsWithStr p reservedName then
                .error (.valueError (reservedMsg "asset" p))
              else .ok expanded
          | some _ => .error (.attributeError "startswith")
          | none =>
              .error (.attributeError "'NoneType' object has no attribute 'startswith'")
      | _ => .ok expanded

/-- `mapM` for `Except`, written out for easy unfolding. -/
def exceptMapM (f : PyVal → Except PyErr PyVal) : List PyVal → Except PyErr (List PyVal)
  | [] => .ok []
  | x :: xs =>
      match f x with
      | .error e => .error e
      | .ok y =>
          match exceptMapM f xs with
          | .error e => .error e
          | .ok ys => .ok (y :: ys)

/-- Run one of the three per-entry loops over the (in-place mutated) list
bound to key `k`.  An absent key means `swenv.get(k, [])` yields `[]` and the
loop is a no-op.  A present non-list value cannot be indexed-assigned in the
source (`files[idx] = ...` raises `TypeError`); only `modules` can still be
a non-list at this point, since `files` and `assets` were coerced. -/
def normListKey (swenv : Dict) (k : String) (f : PyVal → Except PyErr PyVal) :
    Except PyErr Dict :=
  match dictGet swenv k with
  | some (.list xs) =>
      match exceptMapM f xs with
      | .error e => .error e
      | .ok ys => .ok (dictSet swenv k (.list ys))
  | some _ => .error (.typeError "'str' object does not support item assignment")
  | none => .ok swenv

/-- `_normalize_swenv(swenv, swenv_path)`.  `swenv_path` is the already
absolutized base directory (the source applies `.absolute()` first, which
depends on the process working directory and is therefore taken as input).
Updates the document in place; a raised exception leaves the partially
updated document behind, which we model by returning only the error. -/
def normalizeSwenv (swenv : Dict) (swenv_path : String) : Except PyErr Dict :=
  match foldKey "file" "files" fileFilesErrText swenv with
  | .error e => .error e
  | .ok s1 =>
    match foldKey "module" "modules" fileFilesErrText s1 with
    | .error e => .error e
    | .ok s2 =>
      match foldKey "asset" "assets" assetAssetsErrText s2 with
      | .error e => .error e
      | .ok s3 =>
        let s4 := coerceListKey "pip" (coerceListKey "assets" (coerceListKey "files" s3))
        match normListKey s4 "files" (normFileEntry "file" swenv_path) with
        | .error e => .error e
        | .ok s5 =>
          match normListKey s5 "modules" (normFileEntry "module" swenv_path) with
          | .error e => .error e
          | .ok s6 => normListKey s6 "assets" normAssetEntry

/- ## `_install_swenv` and its helpers -/

/-- An element of `sys.path` as a Python object: the interpreter's search
path holds strings, but the code under scrutiny passes `Path` objects to
membership tests, and a `Path` never compares equal to a `str`. -/
inductive SPElem where
  | ofStr (s : String)
  | ofPath (s : String)

/-- Python `==` between search-path elements: `Path == str` is `False` in
both orders; values of the same type compare by content (`Path` strings are
kept in normalized rendering, matching `PurePath` equality). -/
def spEq : SPElem → SPElem → Bool
  | .ofStr a, .ofStr b => a == b
  | .ofPath a, .ofPath b => a == b
  | _, _ => false

/-- `str()` of a search-path element. -/
def SPElem.toStr : SPElem → String
  | .ofStr s => s
  | .ofPath s => s

/-- `x in sys.path`. -/
def spMem (sysPath : List SPElem) (x : SPElem) : Bool :=
  sysPath.any (fun e => spEq x e)

/-- `_install_swenv_dir(autoinst_dir)`: insert `str(autoinst_dir)` at the
front of `sys.path` unless `autoinst_dir` (the object itself, possibly a
`Path`) is already a member.  The dead `if False:` block of the source is
omitted. -/
def installSwenvDir (sysPath : List SPElem) (autoinst_dir : SPElem) : List SPElem :=
  if spMem sysPath autoinst_dir then sysPath
  else .ofStr autoinst_dir.toStr :: sysPath

/-- `_install_swenv_file(thefile)`: for a `.py` file, insert the string of
its parent directory at the front of `sys.path` unless already present.
(`thefile` is always a `str` or `Path` here, so the `isinstance` guard of
the source is satisfied and its error branch unreachable.) -/
def installSwenvFile (sysPath : List SPElem) (thefile : SPElem) : List SPElem :=
  if pySuffix thefile.toStr == ".py" then
    let d := pyParent thefile.toStr
    if spMem sysPath (.ofStr d) then sysPath else .ofStr d :: sysPath
  else sysPath

/-- The process-wide state mutated by the installer: `sys.path`, the
`PkgMsgs` in-memory sink fed by `_my_print_msg`, the lines written with
plain `print(...)` (standard output, not the sink), and the
`AssetsDownloadPending` global (Python `None` or the stored value). -/
structure InstState where
  sysPath : List SPElem
  msgs : List String
  printed : List String
  pending : Option PyVal

/-- `_my_print_msg(m)`: append to the `PkgMsgs` sink (the optional echo to
standard error under `$CPD_SOFTWARE_ENV_VERBOSE` has no further effect). -/
def myPrintMsg (st : InstState) (m : String) : InstState :=
  { st with msgs := st.msgs ++ [m] }

/-- A line written with plain `print(...)`. -/
def printLine (st : InstState) (m : String) : InstState :=
  { st with printed := st.printed ++ [m] }

/-- The relevant part of the local filesystem: which paths are directories
and which are files. -/
structure Fs where
  dirs : List String
  files : List String

def Fs.isDir (fs : Fs) (p : String) : Bool := fs.dirs.contains p
def Fs.isFile (fs : Fs) (p : String) : Bool := fs.files.contains p

/-- The environment variables consulted by the installer
(`os.getenv` returns `None` for unset variables). -/
structure Env where
  jupyterConfigDir : Option String := none
  hostname : Option String := none
  userAccessToken : Option String := none
  spaceId : Option String := none
  projectId : Option String := none

/-- Truthiness of an `os.getenv` result (unset or empty is falsy). -/
def envTruthy : Option String → Bool
  | none => false
  | some s => !(s == "")

/-- `_running_in_ws_jupyterlab()`. -/
def runningInWsJupyterlab (env : Env) : Bool :=
  startsWithStr (env.jupyterConfigDir.getD "") "/home/wsuser/.jupyter/lab"
  || startsWithStr (env.hostname.getD "") "jupyter-lab"

/-- The not-found diagnostic printed (via `print`, with one space between
arguments) when a file entry resolves to neither a file nor a directory. -/
def notFoundMsg (path : String) : String :=
  "Error in install swenv: file " ++ path ++ " not found. Skipping entry."

/-- One iteration of the `files` loop of `_install_swenv`: report the entry
to the sink, resolve the path (a mapping uses `root / path`, or bare `path`
under the `file_path_ignore_root` flag; a missing `path` key raises
`KeyError`), join it onto `swenv_path`, then install a directory or a `.py`
file — a path that is neither is skipped with a printed diagnostic. -/
def installFileEntry (fs : Fs) (ignoreRoot : Bool) (swenv_path : String)
    (st : InstState) (p : PyVal) : Except PyErr InstState :=
  let nameMsg :=
    match p with
    | .dict kvs =>
        pyFmtOpt (match dictGet kvs "name" with
                  | some v => some v
                  | none => dictGet kvs "path")
    | other => pyFmt other
  let st := myPrintMsg st ("set sys.path for '" ++ nameMsg ++ "'")
  let path0 : Except PyErr (InstState × String) :=
    match p with
    | .dict kvs =>
        match dictGet kvs "path" with
        | none => .error (.keyError "path")
        | some (.str pathStr) =>
            match (if ignoreRoot then some "" else
                     match dictGet kvs "root" with
                     | none => some ""
                     | some (.str r) => some r
                     | some _ => none) with
            | none => .error (.typeError "argument should be a str or an os.PathLike object")
            | some root =>
                let path := if ignoreRoot then normPath pathStr else pathJoin root pathStr
                .ok (myPrintMsg st ("dict_path " ++ path), path)
        | some _ => .error (.typeError "argument should be a str or an os.PathLike object")
    | .str s => .ok (st, normPath s)
    | _ => .error (.typeError "argument should be a str or an os.PathLike object")
  match path0 with
  | .error e => .error e
  | .ok (st, path) =>
      let full := pathJoin swenv_path path
      if fs.isDir full then
        .ok { st with sysPath := installSwenvDir st.sysPath (.ofPath full) }
      else if fs.isFile full then
        .ok { st with sysPath := installSwenvFile st.sysPath (.ofPath full) }
      else
        .ok (printLine st (notFoundMsg full))

/-- Left fold of an entry handler over a list, stopping at the first raised
exception. -/
def foldEntries (f : InstState → PyVal → Except PyErr InstState)
    (st : InstState) : List PyVal → Except PyErr InstState
  | [] => .ok st
  | x :: xs =>
      match f st x with
      | .error e => .error e
      | .ok st' => foldEntries f st' xs

/-- The `files`/`file` branch of `_install_swenv`: fetch
`swenv.get("files", swenv.get("file"))`, wrap a non-list value in a list,
and run the per-entry installation under the document's
`file_path_ignore_root` flag. -/
def installFilesKey (fs : Fs) (swenv : Dict) (swenv_path : String)
    (st : InstState) : Except PyErr InstState :=
  let fileVal :=
    match dictGet swenv "files" with
    | some v => some v
    | none => dictGet swenv "file"
  match fileVal with
  | none => .ok st  -- unreachable: dispatch guarantees the key is present
  | some v =>
      let file_list := match v with | .list xs => xs | other => [other]
      let ignoreRoot := truthyOpt (dictGet swenv "file_path_ignore_root")
      foldEntries (installFileEntry fs ignoreRoot swenv_path) st file_list

/-- `_provision_assets(asset_list)` (the `assets_added_to_sdist` branch):
print the banner, report found credentials, and for each `script` asset with
a `path`, insert the parent of `get_path() / path` at the front of
`sys.path` when `str(path)` is not yet a member (the source compares the
asset's own `path`, not the inserted parent directory).  A non-mapping
entry raises `AttributeError` on `.get`. -/
def provisionAssets (env : Env) (pkgPath : String) (st : InstState) :
    List PyVal → Except PyErr InstState
  | [] => .ok st
  | asset :: rest =>
      match asset with
      | .dict kvs =>
          let st := if envTruthy env.spaceId then
              myPrintMsg st ("Found space id " ++ (env.spaceId.getD ""))
            else st
          let st := if envTruthy env.userAccessToken then
              myPrintMsg st "Found an access token"
            else st
          let pathOpt := dictGet kvs "path"
          let isScript :=
            match dictGet kvs "asset_type" with
            | some (.str t) => t == "script"
            | _ => false  -- a missing or non-string asset_type never equals "script"
          if truthyOpt pathOpt && isScript then
            match pathOpt with
            | some (.str p) =>
                let dirPath := pyParent (pathJoin pkgPath p)
                let st :=
                  if spMem st.sysPath (.ofStr p) then st
                  else
                    { (myPrintMsg st
                        ("Adding path " ++ dirPath ++ " for " ++
                          pyFmtOpt (dictGet kvs "name"))) with
                      sysPath := .ofStr dirPath :: st.sysPath }
                provisionAssets env pkgPath st rest
            | _ => .error (.typeError "argument should be a str or an os.PathLike object")
          else provisionAssets env pkgPath st rest
      | _ => .error (.attributeError "get")

/-- The two sink messages of the deferred branch of the `assets` handling. -/
def deferMsg1 : String := "Warning: dynamic download of assets in deployment not yet supported"
def deferMsg2 : String := "...      call build(add=\x7b'assets'\x7d in the project"

/-- The `assets`/`asset` branch of `_install_swenv`: under
`assets_added_to_sdist` provision from the local copies; inside the platform
notebook, or when the document is not a built software environment, assume
the assets are available locally; otherwise (deployed context) record the
asset list in `AssetsDownloadPending` for a later explicit download. -/
def installAssetsKey (env : Env) (pkgPath : String) (swenv : Dict)
    (st : InstState) : Except PyErr InstState :=
  let assetVal :=
    match dictGet swenv "assets" with
    | some v => some v
    | none => dictGet swenv "asset"
  match assetVal with
  | none => .ok st  -- unreachable: dispatch guarantees the key is present
  | some v =>
      if truthyOpt (dictGet swenv "assets_added_to_sdist") then
        match v with
        | .list xs =>
            provisionAssets env pkgPath
              (printLine st ("_provision_assets " ++ pyRepr (.list xs))) xs
        | _ => .error (.assertFailed "isinstance(asset_list, list)")
      else if runningInWsJupyterlab env then
        .ok (myPrintMsg st "Assuming that assets are already available locally in JupyterLab")
      else if !truthyOpt (dictGet swenv "built_swenv") then
        .ok (myPrintMsg st "Assuming that assets are already available locally")
      else
        .ok { myPrintMsg (myPrintMsg st deferMsg1) deferMsg2 with pending := some v }

/- ## pip invocation (`_map_pip_packages_list_to_reqfile`, `_install_pip_packages_list`, `_run_pip`) -/

/-- Python `repr` of a list of strings, as an f-string renders `pip_cmd`. -/
def pyStrListRepr (xs : List String) : String :=
  "[" ++ String.intercalate ", " (xs.map (fun s => "'" ++ s ++ "'")) ++ "]"

/-- One line of the generated requirements file: a plain requirement string
is kept; a mapping with a truthy `path` becomes a local `--index-url`
directive rooted at the package directory; anything else fails the
`assert isinstance(dep, str)` (after an error print for a path-less
mapping). -/
def mapPipDep (pkgPath : String) : PyVal → Except PyErr String
  | .str s => .ok s
  | .dict kvs =>
      if truthyOpt (dictGet kvs "path") then
        match dictGet kvs "path" with
        | some (.str p) =>
            .ok ("--index-url file://" ++ pathJoin (pathJoin pkgPath p) "simple")
        | _ => .error (.typeError "argument should be a str or an os.PathLike object")
      else .error (.assertFailed "isinstance(dep, str)")
  | _ => .error (.assertFailed "isinstance(dep, str)")

/-- `mapM` of `mapPipDep` over the dependency list (the loop that writes
`tmp_requirements.txt`). -/
def mapPipDeps (pkgPath : String) : List PyVal → Except PyErr (List String)
  | [] => .ok []
  | d :: ds =>
      match mapPipDep pkgPath d with
      | .error e => .error e
      | .ok line =>
          match mapPipDeps pkgPath ds with
          | .error e => .error e
          | .ok lines => .ok (line :: lines)

/-- The result of running the package-installer subprocess: exit status and
captured combined stdout/stderr (the source passes `stderr=STDOUT`), as a
function of the full command — the external collaborator of the model. -/
def PipRun : Type := List String → Int × String

/-- `_run_pip(pip_cmd)`: report the command to the sink, run the subprocess,
and raise a generic `Exception` carrying the command and the captured
combined output when the exit status is non-zero (for an `int` status,
`returncode and int(returncode) != 0` is exactly `returncode ≠ 0`). -/
def runPip (pipRun : PipRun) (st : InstState) (pip_cmd : List String) :
    Except PyErr InstState :=
  let st := myPrintMsg st ("run " ++ pyStrListRepr pip_cmd)
  let rc := (pipRun pip_cmd).1
  let out := (pipRun pip_cmd).2
  if rc ≠ 0 then .error (.exception ("pip install failed: " ++ pyStrListRepr pip_cmd) out)
  else .ok st

/-- `_install_pip_packages_list(piplist)`: optionally report a `pip.conf`
next to the package, render the dependency list into
`tmp_requirements.txt`, report its content to the sink, and run
`pip install -r tmp_requirements.txt`. -/
def installPipList (fs : Fs) (pipRun : PipRun) (pkgPath : String)
    (st : InstState) (deps : List PyVal) : Except PyErr InstState :=
  let conf := pathJoin pkgPath "pip.conf"
  let st := if fs.isFile conf then myPrintMsg st ("Setting PIP_CONFIG_FILE=" ++ conf) else st
  match mapPipDeps pkgPath deps with
  | .error e => .error e
  | .ok lines =>
      let content := String.join (lines.map (fun l => l ++ "\n"))
      let st := myPrintMsg st ("tmp_requirements.txt\n----\n" ++ content ++ "----")
      runPip pipRun st ["pip", "install", "-r", "tmp_requirements.txt"]

/- ## the `_install_swenv` key dispatch -/

/-- The branch of `_install_swenv` for one top-level key `ki`. -/
def installKey (fs : Fs) (env : Env) (pipRun : PipRun) (pkgPath : String)
    (swenv : Dict) (swenv_path : String) (st : InstState) (ki : String) :
    Except PyErr InstState :=
  if ki == "pip" then
    match dictGet swenv "pip" with
    | some (.list deps) => installPipList fs pipRun pkgPath st deps
    | some v => installPipList fs pipRun pkgPath st [v]
        -- note: the source iterates `swenv.get("pip")` directly; after
        -- normalization it is always a list, and a bare string would be
        -- iterated per character — that unreachable shape is modelled as a
        -- single entry
    | none => .ok st
  else if ki == "conda" || ki == "conda_channel" || ki == "conda_dependencies"
      || ki == "channel" || ki == "dependencies" then
    .ok (printLine st "swenv conda not yet implemented")
  else if ki == "files" || ki == "file" then
    installFilesKey fs swenv swenv_path st
  else if ki == "modules" || ki == "module" then
    .ok (printLine st "import module manually in the project")
  else if ki == "assets" || ki == "asset" then
    installAssetsKey env pkgPath swenv st
  else if ki == "name" || ki == "base" || ki == "file_path_ignore_root"
      || ki == "assets_added_to_sdist" || ki == "pip_added_to_sdist" then
    .ok st
  else
    .ok (myPrintMsg st ("swenv tag '" ++ ki ++ "' not recognized, ignoring the value ..."))

/-- Iterate the key dispatch over a list of keys. -/
def installKeys (fs : Fs) (env : Env) (pipRun : PipRun) (pkgPath : String)
    (swenv : Dict) (swenv_path : String) (st : InstState) :
    List String → Except PyErr InstState
  | [] => .ok st
  | k :: ks =>
      match installKey fs env pipRun pkgPath swenv swenv_path st k with
      | .error e => .error e
      | .ok st' => installKeys fs env pipRun pkgPath swenv swenv_path st' ks

/-- `_install_swenv(swenv, swenv_path)`: process every top-level key of the
document, in insertion order.  (`built_swenv` is notably *not* in the
allow-list of recognized non-actionable keys, so it draws the
"tag not recognized" diagnostic.) -/
def installSwenv (fs : Fs) (env : Env) (pipRun : PipRun) (pkgPath : String)
    (swenv : Dict) (swenv_path : String) (st : InstState) :
    Except PyErr InstState :=
  installKeys fs env pipRun pkgPath swenv swenv_path st (swenv.map (fun kv => kv.1))

/- ## `download_pending_assets` -/

/-- The context identifier put into the connection dictionary by
`download_pending_assets` (the `cpd_conn` keys `space_id` / `project_id`). -/
inductive ConnId where
  | space (id : String)
  | project (id : String)

/-- Result of a `download_pending_assets()` call that did not raise:
the new `AssetsDownloadPending` value, the accumulated sink/printed lines,
and — when the network download was reached — the connection identifier and
asset list passed to `_download_assets` (an external collaborator whose
successful completion is assumed on this path). -/
structure DlResult where
  pending : Option PyVal
  msgs : List String
  printed : List String
  downloadCall : Option (ConnId × List PyVal)

/-- `download_pending_assets()`: a falsy pending list (unset or empty) is a
no-op with a printed diagnostic; otherwise an access token must be present
(`assert`, "missing access token"), a space identifier is preferred over a
project identifier (raising when both are absent), and after the download
the pending list is set to `[]`. -/
def downloadPendingAssets (env : Env) (pending : Option PyVal) :
    Except PyErr DlResult :=
  match pending with
  | none =>
      .ok { pending := none, msgs := [], printed := ["No assets to download"],
            downloadCall := none }
  | some v =>
      if !v.truthy then
        .ok { pending := some v, msgs := [], printed := ["No assets to download"],
              downloadCall := none }
      else
        match v with
        | .list assets =>
            let m1 := "Downloading assets " ++ pyRepr (.list assets)
            if !envTruthy env.userAccessToken then
              .error (.assertMsg "download assets: missing access token")
            else if envTruthy env.spaceId then
              .ok { pending := some (.list []), msgs := [m1], printed := [],
                    downloadCall := some (.space (env.spaceId.getD ""), assets) }
            else if envTruthy env.projectId then
              .ok { pending := some (.list []), msgs := [m1], printed := [],
                    downloadCall := some (.project (env.projectId.getD ""), assets) }
            else
              .error (.exception "download assets: missing space id and project id" "")
        | _ => .error (.assertFailed "isinstance(AssetsDownloadPending, list)")

/- ## process lifecycle (`_set_swenv_from_file`, `load`) -/

/-- The lifecycle globals guarding explicit configuration loading:
`PkgInitialized`, `SoftwareEnv` (Python `None` or a document) and
`CurrentSwspecId`. -/
structure GState where
  pkgInitialized : Bool
  softwareEnv : Option Dict
  currentSwspecId : Option String

/-- Truthiness of the `SoftwareEnv` global (`None` and `{}` are falsy). -/
def swenvTruthy : Option Dict → Bool
  | none => false
  | some kvs => !kvs.isEmpty

/-- `_set_swenv_from_file(fpath)` (the body of `setup`): when
`PkgInitialized` is already set, print an error and return with every
global and all installer state untouched; otherwise read the file (its
parsed content `fileDoc` and absolutized parent directory `parentDir` are
inputs), reset `CurrentSwspecId`, bind, normalize and install the document,
and set `PkgInitialized`. -/
def setSwenvFromFile (fs : Fs) (env : Env) (pipRun : PipRun) (pkgPath : String)
    (g : GState) (fileDoc : Dict) (parentDir : String) (st : InstState) :
    Except PyErr (GState × InstState) :=
  if g.pkgInitialized then
    .ok (g, printLine st "Error: Software Env is already initialized.")
  else if swenvTruthy g.softwareEnv then
    .error (.assertFailed "not SoftwareEnv")
  else
    let g := { g with currentSwspecId := none, softwareEnv := some fileDoc }
    let st := myPrintMsg st ("set from file: " ++ pyRepr (.dict fileDoc))
    if fileDoc.isEmpty then .error (.assertFailed "SoftwareEnv")
    else
      match normalizeSwenv fileDoc parentDir with
      | .error e => .error e
      | .ok normDoc =>
          -- `_normalize_swenv` mutates the document in place, so the global
          -- sees the normalized form
          let g := { g with softwareEnv := some normDoc }
          match installSwenv fs env pipRun pkgPath normDoc parentDir st with
          | .error e => .error e
          | .ok st' => .ok ({ g with pkgInitialized := true }, st')

/-- `_set_swenv_from_jsonfile(path)`: unconditionally bind the parsed json
document to the `SoftwareEnv` global — no guard, no normalization, no
installation. -/
def setSwenvFromJsonfile (g : GState) (jsonDoc : Dict) : GState :=
  { g with softwareEnv := some jsonDoc }

/-- `load(name)`: read the saved json document for `name` (its parsed
content is the input) and hand it to `_set_swenv_from_jsonfile`. -/
def loadSaved (g : GState) (jsonDoc : Dict) : GState :=
  setSwenvFromJsonfile g jsonDoc

/-- Whether a value is a dictionary carrying key `k`. -/
def hasKeyB (e : PyVal) (k : String) : Bool :=
  match e with
  | .dict kvs => (dictGet kvs k).isSome
  | _ => false

/- ## Theorems -/

/-- Reading a key after `dictSet`: the set key yields the new value, any
other key is unaffected. -/
theorem dictGet_dictSet (kvs : Dict) (k k' : String) (v : PyVal) :
    dictGet (dictSet kvs k v) k' = if k = k' then some v else dictGet kvs k' := by
  induction kvs with
  | nil =>
      by_cases hkk : k = k' <;> simp [dictSet, dictGet, hkk]
  | cons kv rest ih =>
      obtain ⟨a, b⟩ := kv
      simp only [dictSet]
      by_cases hak : a = k
      · subst hak
        simp only [if_pos rfl, dictGet]
        by_cases hkk : a = k' <;> simp [hkk]
      · simp only [if_neg hak, dictGet]
        by_cases hak' : a = k'
        · have hkk' : ¬ k = k' := fun hh => hak (hak'.trans hh.symm)
          simp [hak', hkk']
        · simp [hak', ih]

/-- Every element of a successful `exceptMapM` output is the successful
image of some input. -/
theorem exceptMapM_mem (f : PyVal → Except PyErr PyVal) :
    ∀ (xs ys : List PyVal), exceptMapM f xs = .ok ys →
      ∀ y ∈ ys, ∃ x, f x = .ok y := by
  intro xs
  induction xs with
  | nil =>
      intro ys h y hy
      simp only [exceptMapM, Except.ok.injEq] at h
      subst h
      cases hy
  | cons x xs ih =>
      intro ys h y hy
      simp only [exceptMapM] at h
      rcases hfx : f x with e | y0 <;> rw [hfx] at h
      · cases h
      · rcases hrest : exceptMapM f xs with e | ys0 <;> rw [hrest] at h
        · cases h
        · simp only [Except.ok.injEq] at h
          subst h
          rcases hy with _ | hy'
          · exact ⟨x, hfx⟩
          · exact ih ys0 hrest y (by assumption)

/-- A successful `normListKey` leaves every other key unchanged. -/
theorem normListKey_pres (sw sw' : Dict) (k : String)
    (f : PyVal → Except PyErr PyVal)
    (h : normListKey sw k f = .ok sw') (k' : String) (hne : ¬ k = k') :
    dictGet sw' k' = dictGet sw k' := by
  rcases hg : dictGet sw k with _ | v
  · simp only [normListKey, hg, Except.ok.injEq] at h
    subst h
    rfl
  · cases v with
    | list xs =>
        rcases hm : exceptMapM f xs with e | ys
        · simp [normListKey, hg, hm] at h
        · simp only [normListKey, hg, hm, Except.ok.injEq] at h
          subst h
          simp [dictGet_dictSet, hne]
    | str s => simp [normListKey, hg] at h
    | bool b => simp [normListKey, hg] at h
    | dict kvs => simp [normListKey, hg] at h

/-- Every entry of the list bound to key `k` after a successful
`normListKey` is the successful image of some original entry under the
per-entry normalizer. -/
theorem normListKey_entries (sw sw' : Dict) (k : String)
    (f : PyVal → Except PyErr PyVal)
    (h : normListKey sw k f = .ok sw') (xs' : List PyVal)
    (hget : dictGet sw' k = some (.list xs')) :
    ∀ y ∈ xs', ∃ x, f x = .ok y := by
  rcases hg : dictGet sw k with _ | v
  · simp only [normListKey, hg, Except.ok.injEq] at h
    subst h
    rw [hget] at hg
    cases hg
  · cases v with
    | list xs =>
        rcases hm : exceptMapM f xs with e | ys
        · simp [normListKey, hg, hm] at h
        · simp only [normListKey, hg, hm, Except.ok.injEq] at h
          subst h
          rw [dictGet_dictSet, if_pos rfl] at hget
          simp only [Option.some.injEq, PyVal.list.injEq] at hget
          subst hget
          exact exceptMapM_mem f xs _ hm
    | str s => simp [normListKey, hg] at h
    | bool b => simp [normListKey, hg] at h
    | dict kvs => simp [normListKey, hg] at h

/-- A file or module entry accepted by the per-entry normalizer is a
dictionary with `path` and `root` keys. -/
theorem normFileEntry_ok_keys (kind sp : String) (item e : PyVal)
    (h : normFileEntry kind sp item = .ok e) :
    hasKeyB e "path" = true ∧ hasKeyB e "root" = true := by
  cases item with
  | str s =>
      rcases hres : startsWithStr s reservedName with _ | _ <;>
        simp [normFileEntry, hres] at h
      subst h
      constructor <;> simp [hasKeyB, dictGet]
  | dict kvs =>
      rcases hp : dictGet kvs "path" with _ | v
      · simp [normFileEntry, truthyOpt, hp] at h
      · cases v with
        | str p =>
            rcases hemp : (p == "") with _ | _
            · rcases hres : startsWithStr p reservedName with _ | _ <;>
                simp [normFileEntry, truthyOpt, PyVal.truthy, hp, hemp, hres] at h
              subst h
              constructor
              · simp [hasKeyB, dictGet_dictSet, hp]
              · simp [hasKeyB, dictGet_dictSet]
            · simp [normFileEntry, truthyOpt, PyVal.truthy, hp, hemp] at h
        | bool b =>
            cases b <;> simp [normFileEntry, truthyOpt, PyVal.truthy, hp] at h
        | list xs =>
            rcases hxe : xs.isEmpty with _ | _ <;>
              simp [normFileEntry, truthyOpt, PyVal.truthy, hp, hxe] at h
        | dict kvs2 =>
            rcases hke : kvs2.isEmpty with _ | _ <;>
              simp [normFileEntry, truthyOpt, PyVal.truthy, hp, hke] at h
  | bool b => cases h
  | list xs => cases h

/-- An asset entry accepted by the per-entry normalizer is a dictionary
with a `path` key. -/
theorem normAssetEntry_ok_path (item e : PyVal)
    (h : normAssetEntry item = .ok e) : hasKeyB e "path" = true := by
  cases item with
  | str s =>
      rcases hsuf : (pySuffix s == ".py") with _ | _ <;>
        rcases hres : startsWithStr s reservedName with _ | _ <;>
        simp [normAssetEntry, hsuf, hres, dictGet] at h <;>
        (subst h; simp [hasKeyB, dictGet])
  | dict kvs =>
      rcases hp : dictGet kvs "path" with _ | v
      · simp [normAssetEntry, hp] at h
      · cases v with
        | str p =>
            rcases hres : startsWithStr p reservedName with _ | _ <;>
              simp [normAssetEntry, hp, hres] at h
            subst h
            simp [hasKeyB, hp]
        | bool b => simp [normAssetEntry, hp] at h
        | list xs => simp [normAssetEntry, hp] at h
        | dict kvs2 => simp [normAssetEntry, hp] at h
  | bool b => cases h
  | list xs => cases h

/-- C1: evaluation of the source's file-entry normalization at mapping-form
entries.  A mapping without a `path` key is rejected ("must have path"), as
the claim states; but the `root` field of a mapping entry is set to
`base_dir / entry.path` — the code joins the entry's `path`, not its `root`
(`swenv_path / item.get("path", "")` in the source), so an explicit
`root: /some/project/dir` is discarded (the result is `/base/myfile.py`,
not `/some/project/dir`), and an entry without `root` also gets
`/base/myfile.py` instead of the claimed `base_dir / "" = /base`. -/
theorem c1_mapping_root_resolution :
    normalizeSwenv
        [("files", PyVal.list [.dict [("path", .str "myfile.py"),
                                      ("root", .str "/some/project/dir")]])] "/base"
      = .ok [("files", PyVal.list [.dict [("path", .str "myfile.py"),
                                          ("root", .str "/base/myfile.py")]])]
    ∧ normalizeSwenv [("files", PyVal.list [.dict [("path", .str "myfile.py")]])] "/base"
      = .ok [("files", PyVal.list [.dict [("path", .str "myfile.py"),
                                          ("root", .str "/base/myfile.py")]])]
    ∧ normalizeSwenv [("files", PyVal.list [.dict [("name", .str "x")]])] "/base"
      = .error (.assertFailed "item.get(\x22path\x22)")
    ∧ pathJoin "/base" "/some/project/dir" = "/some/project/dir"
    ∧ pathJoin "/base" "" = "/base" :=
  ⟨rfl, rfl, rfl, rfl, rfl⟩

/-- C2: evaluation of the files-branch installation at a directory entry
installed twice.  The first installation puts `/base/d` (as a string) at the
front of the search path; the second installation inserts it *again*,
because `_install_swenv_dir` tests membership of the `Path` object
`autoinst_dir` while having inserted `str(autoinst_dir)`, and a `Path`
never equals a `str` — the search path ends with two occurrences, refuting
the claimed skip-if-present behaviour. -/
theorem c2_duplicate_dir_insertion :
    installFilesKey ⟨["/base/d"], []⟩ [("files", PyVal.list [.str "d"])] "/base"
        ⟨[], [], [], none⟩
      = .ok ⟨[.ofStr "/base/d"], ["set sys.path for 'd'"], [], none⟩
    ∧ installFilesKey ⟨["/base/d"], []⟩ [("files", PyVal.list [.str "d"])] "/base"
        ⟨[.ofStr "/base/d"], ["set sys.path for 'd'"], [], none⟩
      = .ok ⟨[.ofStr "/base/d", .ofStr "/base/d"],
             ["set sys.path for 'd'", "set sys.path for 'd'"], [], none⟩ :=
  ⟨rfl, rfl⟩

/-- C4: evaluation of the singular/plural key folding.  A document with both
`file` and `files` (resp. both `asset` and `assets`) fails with a structural
error naming those keys, and a singular-only key is renamed to the plural
key with the same value; but a document with both `module` and `modules`
fails with the *copy-pasted* `file`/`files` message, which does not name the
conflicting keys. -/
theorem c4_key_folding :
    normalizeSwenv [("module", PyVal.list [.str "m.py"]), ("modules", PyVal.list [])] "/b"
      = .error (.assertFalseAfterPrint
          "Error: you can use either key 'file' or 'files' but not both together.")
    ∧ normalizeSwenv [("file", PyVal.list [.str "a.py"]), ("files", PyVal.list [])] "/b"
      = .error (.assertFalseAfterPrint
          "Error: you can use either key 'file' or 'files' but not both together.")
    ∧ normalizeSwenv [("asset", PyVal.list []), ("assets", PyVal.list [])] "/b"
      = .error (.assertFalseAfterPrint
          "Error: you can use either key 'asset' or 'assets' but not both together.")
    ∧ foldKey "file" "files" fileFilesErrText
        [("file", PyVal.list [.str "a", .str "b"]), ("name", .str "n")]
      = .ok [("name", PyVal.str "n"), ("files", PyVal.list [.str "a", .str "b"])] :=
  ⟨rfl, rfl, rfl, rfl⟩

/-- C5: evaluation of the asset-shorthand expansion.  A `.py` string becomes
the canonical script entry, identical to the explicit mapping passed through
unchanged, and any other string becomes a `data_asset` entry; but a
mapping-form entry *without* a `path` key — such as the
`name`/`type` asset of the module's own docstring — does not pass through:
the unconditional reserved-prefix check calls `.startswith` on the `None`
returned by `.get("path")` and raises `AttributeError`. -/
theorem c5_asset_shorthand :
    normAssetEntry (.str "foo.py")
      = .ok (.dict [("name", .str "foo"), ("path", .str "foo.py"),
                    ("asset_type", .str "script")])
    ∧ normAssetEntry (.dict [("name", .str "foo"), ("path", .str "foo.py"),
                             ("asset_type", .str "script")])
      = .ok (.dict [("name", .str "foo"), ("path", .str "foo.py"),
                    ("asset_type", .str "script")])
    ∧ normAssetEntry (.str "data.csv")
      = .ok (.dict [("name", .str "data.csv"), ("path", .str "data.csv"),
                    ("asset_type", .str "data_asset")])
    ∧ normAssetEntry (.dict [("name", .str "My project asset"),
                             ("type", .str "data_asset")])
      = .error (.attributeError "'NoneType' object has no attribute 'startswith'") :=
  ⟨rfl, rfl, rfl, rfl⟩

/-- A string that starts with the reserved name is nonempty. -/
theorem ne_empty_of_reserved {p : String} (h : startsWithStr p reservedName = true) :
    (p == "") = false := by
  rcases hp : (p == "") with _ | _
  · rfl
  · exfalso
    have hpe : p = "" := by
      have hx := hp
      rw [beq_iff_eq] at hx
      exact hx
    subst hpe
    simp [startsWithStr, reservedName, List.isPrefixOf] at h

/-- C6: any file, module or asset entry whose `path` begins with
`cpd_software_env` is rejected by the normalizer's per-entry processing with
a `ValueError` naming the offending entry, in both the plain-string and the
mapping form. -/
theorem c6_reserved_path_rejected
    (sp p : String) (kvs : Dict)
    (hpre : startsWithStr p reservedName = true)
    (hpath : dictGet kvs "path" = some (.str p)) :
    normFileEntry "file" sp (.str p) = .error (.valueError (reservedMsg "file" p))
    ∧ normFileEntry "module" sp (.str p) = .error (.valueError (reservedMsg "module" p))
    ∧ normAssetEntry (.str p) = .error (.valueError (reservedMsg "asset" p))
    ∧ normFileEntry "file" sp (.dict kvs) = .error (.valueError (reservedMsg "file" p))
    ∧ normFileEntry "module" sp (.dict kvs) = .error (.valueError (reservedMsg "module" p))
    ∧ normAssetEntry (.dict kvs) = .error (.valueError (reservedMsg "asset" p)) := by
  have hne := ne_empty_of_reserved hpre
  refine ⟨?_, ?_, ?_, ?_, ?_, ?_⟩
  · simp [normFileEntry, hpre]
  · simp [normFileEntry, hpre]
  · rcases hsuf : (pySuffix p == ".py") with _ | _ <;>
      simp [normAssetEntry, hsuf, dictGet, hpre]
  · simp [normFileEntry, hpath, truthyOpt, PyVal.truthy, hne, hpre]
  · simp [normFileEntry, hpath, truthyOpt, PyVal.truthy, hne, hpre]
  · simp [normAssetEntry, hpath, hpre]

/-- C6 witness: the reserved path `cpd_software_env/x.py` of the spec's own
example, as a string entry and as a mapping entry. -/
theorem c6_reserved_path_witness :
    startsWithStr "cpd_software_env/x.py" reservedName = true
    ∧ dictGet [("path", PyVal.str "cpd_software_env/x.py")] "path"
        = some (.str "cpd_software_env/x.py")
    ∧ normFileEntry "file" "/b" (.str "cpd_software_env/x.py")
        = .error (.valueError (reservedMsg "file" "cpd_software_env/x.py"))
    ∧ normFileEntry "module" "/b" (.dict [("path", PyVal.str "cpd_software_env/x.py")])
        = .error (.valueError (reservedMsg "module" "cpd_software_env/x.py"))
    ∧ normAssetEntry (.str "cpd_software_env/x.py")
        = .error (.valueError (reservedMsg "asset" "cpd_software_env/x.py")) := by
  have h := c6_reserved_path_rejected "/b" "cpd_software_env/x.py"
    [("path", PyVal.str "cpd_software_env/x.py")] (by decide) rfl
  exact ⟨by decide, rfl, h.1, h.2.2.2.2.1, h.2.2.1⟩

/-- C7 counterexample: normalization of a document with a mapping-form file
entry `{path: a.py}` and a mapping-form asset entry
`{name: x, path: p.csv, type: script}` succeeds, yet the resulting file
entry has no `name` field (mapping entries only gain `root`) and the
resulting asset entry has no `asset_type` field (the `type` spelling is
passed through un-renamed) — refuting the claim that every entry ends up
with explicit `name`, `path`, and `root`/`asset_type` fields. -/
theorem c7_mapping_entries_lack_fields :
    normalizeSwenv
        [("files", PyVal.list [.dict [("path", .str "a.py")]]),
         ("assets", PyVal.list [.dict [("name", .str "x"), ("path", .str "p.csv"),
                                       ("type", .str "script")]])] "/b"
      = .ok [("files", PyVal.list [.dict [("path", .str "a.py"),
                                          ("root", .str "/b/a.py")]]),
             ("assets", PyVal.list [.dict [("name", .str "x"), ("path", .str "p.csv"),
                                           ("type", .str "script")]])]
    ∧ hasKeyB (.dict [("path", .str "a.py"), ("root", .str "/b/a.py")]) "name" = false
    ∧ hasKeyB (.dict [("name", .str "x"), ("path", .str "p.csv"),
                      ("type", .str "script")]) "asset_type" = false :=
  ⟨rfl, rfl, rfl⟩

/-- C7 amended: after successful normalization every `files` and `modules`
entry is a dictionary with explicit `path` and `root` fields, every `assets`
entry is a dictionary with an explicit `path` field, and an entry given in
string shorthand additionally carries `name` (and `asset_type` for assets);
mapping-form entries keep only the fields they were given (plus `root`). -/
theorem c7_canonical_fields
    (swenv : Dict) (sp : String) (doc' : Dict)
    (h : normalizeSwenv swenv sp = .ok doc') :
    (∀ xs, dictGet doc' "files" = some (.list xs) →
       ∀ e ∈ xs, hasKeyB e "path" = true ∧ hasKeyB e "root" = true)
    ∧ (∀ xs, dictGet doc' "modules" = some (.list xs) →
       ∀ e ∈ xs, hasKeyB e "path" = true ∧ hasKeyB e "root" = true)
    ∧ (∀ xs, dictGet doc' "assets" = some (.list xs) →
       ∀ e ∈ xs, hasKeyB e "path" = true)
    ∧ (∀ (k s : String) (e : PyVal), normFileEntry k sp (.str s) = .ok e →
        hasKeyB e "name" = true ∧ hasKeyB e "path" = true ∧ hasKeyB e "root" = true)
    ∧ (∀ (s : String) (e : PyVal), normAssetEntry (.str s) = .ok e →
        hasKeyB e "name" = true ∧ hasKeyB e "path" = true
        ∧ hasKeyB e "asset_type" = true) := by
  have hstrF : ∀ (k s : String) (e : PyVal), normFileEntry k sp (.str s) = .ok e →
      hasKeyB e "name" = true ∧ hasKeyB e "path" = true ∧ hasKeyB e "root" = true := by
    intro k s e he
    rcases hres : startsWithStr s reservedName with _ | _ <;>
      simp [normFileEntry, hres] at he
    subst he
    refine ⟨?_, ?_, ?_⟩ <;> simp [hasKeyB, dictGet]
  have hstrA : ∀ (s : String) (e : PyVal), normAssetEntry (.str s) = .ok e →
      hasKeyB e "name" = true ∧ hasKeyB e "path" = true
      ∧ hasKeyB e "asset_type" = true := by
    intro s e he
    rcases hsuf : (pySuffix s == ".py") with _ | _ <;>
      rcases hres : startsWithStr s reservedName with _ | _ <;>
      simp [normAssetEntry, hsuf, hres, dictGet] at he <;>
      (subst he; refine ⟨?_, ?_, ?_⟩ <;> simp [hasKeyB, dictGet])
  unfold normalizeSwenv at h
  rcases h1 : foldKey "file" "files" fileFilesErrText swenv with e1 | d1
  · simp [h1] at h
  simp only [h1] at h
  rcases h2 : foldKey "module" "modules" fileFilesErrText d1 with e2 | d2
  · simp [h2] at h
  simp only [h2] at h
  rcases h3 : foldKey "asset" "assets" assetAssetsErrText d2 with e3 | d3
  · simp [h3] at h
  simp only [h3] at h
  rcases h5 : normListKey
      (coerceListKey "pip" (coerceListKey "assets" (coerceListKey "files" d3)))
      "files" (normFileEntry "file" sp) with e5 | d5
  · simp [h5] at h
  simp only [h5] at h
  rcases h6 : normListKey d5 "modules" (normFileEntry "module" sp) with e6 | d6
  · simp [h6] at h
  simp only [h6] at h
  refine ⟨?_, ?_, ?_, hstrF, hstrA⟩
  · intro xs hxs e he
    have hx1 : dictGet d6 "files" = some (.list xs) := by
      rw [← normListKey_pres _ _ _ _ h "files" (by decide)]
      exact hxs
    have hx2 : dictGet d5 "files" = some (.list xs) := by
      rw [← normListKey_pres _ _ _ _ h6 "files" (by decide)]
      exact hx1
    obtain ⟨x, hx⟩ := normListKey_entries _ _ _ _ h5 xs hx2 e he
    exact normFileEntry_ok_keys "file" sp x e hx
  · intro xs hxs e he
    have hx1 : dictGet d6 "modules" = some (.list xs) := by
      rw [← normListKey_pres _ _ _ _ h "modules" (by decide)]
      exact hxs
    obtain ⟨x, hx⟩ := normListKey_entries _ _ _ _ h6 xs hx1 e he
    exact normFileEntry_ok_keys "module" sp x e hx
  · intro xs hxs e he
    obtain ⟨x, hx⟩ := normListKey_entries _ _ _ _ h xs hxs e he
    exact normAssetEntry_ok_path x e hx

/-- C7 witness: a document mixing string and mapping shorthand for files,
modules and assets, normalized against `/b`. -/
theorem c7_canonical_fields_witness :
    normalizeSwenv
        [("files", PyVal.list [.str "a.py", .dict [("path", .str "b.py")]]),
         ("modules", PyVal.list [.str "m.py"]),
         ("assets", PyVal.list [.str "foo.py"])] "/b"
      = .ok [("files", PyVal.list
                [.dict [("name", .str "a.py"), ("path", .str "a.py"),
                        ("root", .str "/b")],
                 .dict [("path", .str "b.py"), ("root", .str "/b/b.py")]]),
             ("modules", PyVal.list
                [.dict [("name", .str "m.py"), ("path", .str "m.py"),
                        ("root", .str "/b")]]),
             ("assets", PyVal.list
                [.dict [("name", .str "foo"), ("path", .str "foo.py"),
                        ("asset_type", .str "script")]])]
    ∧ hasKeyB (.dict [("path", .str "b.py"), ("root", .str "/b/b.py")]) "path" = true
    ∧ hasKeyB (.dict [("path", .str "b.py"), ("root", .str "/b/b.py")]) "root" = true
    ∧ hasKeyB (.dict [("name", .str "foo"), ("path", .str "foo.py"),
                      ("asset_type", .str "script")]) "path" = true := by
  have hnorm : normalizeSwenv
      [("files", PyVal.list [.str "a.py", .dict [("path", .str "b.py")]]),
       ("modules", PyVal.list [.str "m.py"]),
       ("assets", PyVal.list [.str "foo.py"])] "/b"
      = .ok [("files", PyVal.list
                [.dict [("name", .str "a.py"), ("path", .str "a.py"),
                        ("root", .str "/b")],
                 .dict [("path", .str "b.py"), ("root", .str "/b/b.py")]]),
             ("modules", PyVal.list
                [.dict [("name", .str "m.py"), ("path", .str "m.py"),
                        ("root", .str "/b")]]),
             ("assets", PyVal.list
                [.dict [("name", .str "foo"), ("path", .str "foo.py"),
                        ("asset_type", .str "script")]])] := rfl
  have h := c7_canonical_fields _ "/b" _ hnorm
  refine ⟨hnorm, ?_, ?_, ?_⟩
  · exact (h.1 _ rfl _ (by simp)).1
  · exact (h.1 _ rfl _ (by simp)).2
  · exact h.2.2.1 _ rfl _ (by simp)

/-- C8: when the installer subprocess exits non-zero, `_run_pip` raises an
exception carrying the captured combined stdout/stderr output (the second
exception argument); on a zero exit status nothing is raised and only the
command report is added to the sink. -/
theorem c8_run_pip_failure
    (pipRun : PipRun) (st : InstState) (cmd : List String) (rc : Int) (out : String)
    (hrun : pipRun cmd = (rc, out)) :
    (rc ≠ 0 →
      runPip pipRun st cmd
        = .error (.exception ("pip install failed: " ++ pyStrListRepr cmd) out))
    ∧ (rc = 0 →
      runPip pipRun st cmd = .ok (myPrintMsg st ("run " ++ pyStrListRepr cmd))) := by
  constructor
  · intro hne
    simp [runPip, hrun, hne]
  · intro h0
    simp [runPip, hrun, h0]

/-- C8 witness: a failing run with output `"boom"` and a succeeding run. -/
theorem c8_run_pip_witness :
    (fun (_ : List String) => ((1 : Int), "boom")) ["pip", "install"] = (1, "boom")
    ∧ (1 : Int) ≠ 0
    ∧ runPip (fun _ => ((1 : Int), "boom")) ⟨[], [], [], none⟩ ["pip", "install"]
        = .error (.exception ("pip install failed: " ++ pyStrListRepr ["pip", "install"]) "boom")
    ∧ runPip (fun _ => ((0 : Int), "ok")) ⟨[], [], [], none⟩ ["pip", "install"]
        = .ok (myPrintMsg ⟨[], [], [], none⟩ ("run " ++ pyStrListRepr ["pip", "install"])) :=
  ⟨rfl, by decide,
   (c8_run_pip_failure (fun _ => ((1 : Int), "boom")) ⟨[], [], [], none⟩
      ["pip", "install"] 1 "boom" rfl).1 (by decide),
   (c8_run_pip_failure (fun _ => ((0 : Int), "ok")) ⟨[], [], [], none⟩
      ["pip", "install"] 0 "ok" rfl).2 rfl⟩

/-- C3: for a canonical document with a non-empty `assets` list, a truthy
`built_swenv`, no `assets_added_to_sdist`, and the notebook signal false,
the assets step of installation leaves the search path (and everything but
the sink) unchanged and records exactly those asset entries in
`AssetsDownloadPending`; a deferred-download call with a falsy pending list
is a no-op with a printed diagnostic; without an access token it fails with
the missing-access-token assertion; with a token but neither space nor
project identifier it raises; and with a token and a space identifier
(regardless of any project identifier) it passes the space connection and
the pending assets to the download and clears the pending list. -/
theorem c3_deferred_assets
    (env env2 env3 env4 : Env) (pkgPath : String) (swenv : Dict)
    (st : InstState) (assets : List PyVal) (p : Option PyVal)
    (hassets : dictGet swenv "assets" = some (.list assets))
    (hne : assets ≠ [])
    (hbuilt : truthyOpt (dictGet swenv "built_swenv") = true)
    (hsdist : dictGet swenv "assets_added_to_sdist" = none)
    (hnb : runningInWsJupyterlab env = false)
    (hfalsy : truthyOpt p = false)
    (h2tok : envTruthy env2.userAccessToken = false)
    (h3tok : envTruthy env3.userAccessToken = true)
    (h3sp : envTruthy env3.spaceId = false)
    (h3pr : envTruthy env3.projectId = false)
    (h4tok : envTruthy env4.userAccessToken = true)
    (h4sp : envTruthy env4.spaceId = true) :
    installAssetsKey env pkgPath swenv st
      = .ok { st with msgs := st.msgs ++ [deferMsg1, deferMsg2],
                      pending := some (.list assets) }
    ∧ downloadPendingAssets env p
      = .ok { pending := p, msgs := [], printed := ["No assets to download"],
              downloadCall := none }
    ∧ downloadPendingAssets env2 (some (.list assets))
      = .error (.assertMsg "download assets: missing access token")
    ∧ downloadPendingAssets env3 (some (.list assets))
      = .error (.exception "download assets: missing space id and project id" "")
    ∧ downloadPendingAssets env4 (some (.list assets))
      = .ok { pending := some (.list []),
              msgs := ["Downloading assets " ++ pyRepr (.list assets)],
              printed := [],
              downloadCall := some (.space (env4.spaceId.getD ""), assets) } := by
  have htr : PyVal.truthy (.list assets) = true := by
    simp [PyVal.truthy, List.isEmpty_iff, hne]
  refine ⟨?_, ?_, ?_, ?_, ?_⟩
  · simp only [truthyOpt] at hbuilt
    simp [installAssetsKey, hassets, hsdist, truthyOpt, hnb, hbuilt, myPrintMsg]
  · cases p with
    | none => simp [downloadPendingAssets]
    | some v =>
        simp only [truthyOpt] at hfalsy
        simp [downloadPendingAssets, hfalsy]
  · simp [downloadPendingAssets, htr, h2tok]
  · simp [downloadPendingAssets, htr, h3tok, h3sp, h3pr]
  · simp [downloadPendingAssets, htr, h4tok, h4sp]

/-- C3 witness: a one-script-asset document flagged `built_swenv`, an empty
environment during installation, and the three credential environments of
the deferred-download call. -/
theorem c3_deferred_assets_witness :
    installAssetsKey ⟨none, none, none, none, none⟩ "/pkg"
        [("assets", PyVal.list [.dict [("name", .str "m"), ("path", .str "m.py"),
                                       ("asset_type", .str "script")]]),
         ("built_swenv", .bool true)]
        ⟨[.ofStr "/keep"], [], [], none⟩
      = .ok ⟨[.ofStr "/keep"], [deferMsg1, deferMsg2], [],
             some (.list [.dict [("name", .str "m"), ("path", .str "m.py"),
                                 ("asset_type", .str "script")]])⟩
    ∧ downloadPendingAssets ⟨none, none, none, none, none⟩ (some (.list []))
      = .ok { pending := some (.list []), msgs := [],
              printed := ["No assets to download"], downloadCall := none }
    ∧ downloadPendingAssets ⟨none, none, none, none, none⟩
        (some (.list [.dict [("name", .str "m"), ("path", .str "m.py"),
                             ("asset_type", .str "script")]]))
      = .error (.assertMsg "download assets: missing access token")
    ∧ downloadPendingAssets ⟨none, none, some "tok", none, none⟩
        (some (.list [.dict [("name", .str "m"), ("path", .str "m.py"),
                             ("asset_type", .str "script")]]))
      = .error (.exception "download assets: missing space id and project id" "")
    ∧ downloadPendingAssets ⟨none, none, some "tok", some "sid", some "pid"⟩
        (some (.list [.dict [("name", .str "m"), ("path", .str "m.py"),
                             ("asset_type", .str "script")]]))
      = .ok { pending := some (.list []),
              msgs := ["Downloading assets " ++
                pyRepr (.list [.dict [("name", .str "m"), ("path", .str "m.py"),
                                      ("asset_type", .str "script")]])],
              printed := [],
              downloadCall := some (.space "sid",
                [.dict [("name", .str "m"), ("path", .str "m.py"),
                        ("asset_type", .str "script")]]) } := by
  have h := c3_deferred_assets
    ⟨none, none, none, none, none⟩ ⟨none, none, none, none, none⟩
    ⟨none, none, some "tok", none, none⟩ ⟨none, none, some "tok", some "sid", some "pid"⟩
    "/pkg"
    [("assets", PyVal.list [.dict [("name", .str "m"), ("path", .str "m.py"),
                                   ("asset_type", .str "script")]]),
     ("built_swenv", .bool true)]
    ⟨[.ofStr "/keep"], [], [], none⟩
    [.dict [("name", .str "m"), ("path", .str "m.py"), ("asset_type", .str "script")]]
    (some (.list []))
    rfl (by simp) rfl rfl rfl rfl rfl rfl rfl rfl rfl rfl
  exact ⟨h.1, h.2.1, h.2.2.1, h.2.2.2.1, h.2.2.2.2⟩

/-- C9 counterexample: installing `files: [d, nofile, d2]` where `/b/d` and
`/b/d2` are directories and `/b/nofile` does not exist succeeds, installs
both surrounding directories, and prints the not-found diagnostic for the
missing entry with plain `print` — the diagnostic is *not* among the
messages recorded in the in-memory `PkgMsgs` sink, refuting the claim that
it is reported via that sink. -/
theorem c9_missing_file_diag_not_in_sink :
    installFilesKey ⟨["/b/d", "/b/d2"], []⟩
        [("files", PyVal.list [.str "d", .str "nofile", .str "d2"])] "/b"
        ⟨[], [], [], none⟩
      = .ok ⟨[.ofStr "/b/d2", .ofStr "/b/d"],
             ["set sys.path for 'd'", "set sys.path for 'nofile'",
              "set sys.path for 'd2'"],
             [notFoundMsg "/b/nofile"], none⟩
    ∧ notFoundMsg "/b/nofile"
        ∉ ["set sys.path for 'd'", "set sys.path for 'nofile'", "set sys.path for 'd2'"] :=
  ⟨rfl, by decide⟩

/-- C9 amended: a file entry whose resolved path is neither a directory nor
a file is skipped without raising — the not-found diagnostic mentioning the
entry is written with plain `print` (standard output) while the in-memory
sink receives only the per-entry progress message — and the loop continues
with the remaining entries from the updated state. -/
theorem c9_missing_file_skipped
    (fs : Fs) (ig : Bool) (sp : String) (st : InstState) (s : String)
    (hdir : fs.isDir (pathJoin sp (normPath s)) = false)
    (hfile : fs.isFile (pathJoin sp (normPath s)) = false) :
    installFileEntry fs ig sp st (.str s)
      = .ok { st with msgs := st.msgs ++ ["set sys.path for '" ++ s ++ "'"],
                      printed := st.printed ++ [notFoundMsg (pathJoin sp (normPath s))] }
    ∧ ∀ xs, foldEntries (installFileEntry fs ig sp) st (.str s :: xs)
        = foldEntries (installFileEntry fs ig sp)
            { st with msgs := st.msgs ++ ["set sys.path for '" ++ s ++ "'"],
                      printed := st.printed ++ [notFoundMsg (pathJoin sp (normPath s))] }
            xs := by
  have hstep : installFileEntry fs ig sp st (.str s)
      = .ok { st with msgs := st.msgs ++ ["set sys.path for '" ++ s ++ "'"],
                      printed := st.printed ++ [notFoundMsg (pathJoin sp (normPath s))] } := by
    simp [installFileEntry, pyFmt, myPrintMsg, printLine, hdir, hfile]
  refine ⟨hstep, fun xs => ?_⟩
  simp [foldEntries, hstep]

/-- C9 witness: the spec's partial-failure scenario — one existing directory
and one nonexistent path — at the entry level. -/
theorem c9_missing_file_witness :
    Fs.isDir ⟨["/b/d"], []⟩ (pathJoin "/b" (normPath "nofile")) = false
    ∧ Fs.isFile ⟨["/b/d"], []⟩ (pathJoin "/b" (normPath "nofile")) = false
    ∧ installFileEntry ⟨["/b/d"], []⟩ false "/b" ⟨[.ofStr "/b/d"], [], [], none⟩ (.str "nofile")
      = .ok { sysPath := [.ofStr "/b/d"],
              msgs := ["set sys.path for 'nofile'"],
              printed := [notFoundMsg (pathJoin "/b" (normPath "nofile"))],
              pending := none } :=
  ⟨by decide, by decide,
   (c9_missing_file_skipped ⟨["/b/d"], []⟩ false "/b" ⟨[.ofStr "/b/d"], [], [], none⟩
      "nofile" (by decide) (by decide)).1⟩

/-- C10 counterexample: with `PkgInitialized` set and a current document in
place, `load` (via `_set_swenv_from_jsonfile`) is *not* rejected — it
replaces the `SoftwareEnv` global with the newly read document.  (It does
perform no installation, but the claim's "rejected without replacing the
current environment document" part fails.) -/
theorem c10_load_replaces_doc :
    loadSaved ⟨true, some [("name", PyVal.str "old")], some "spec1"⟩
        [("name", PyVal.str "new")]
      = ⟨true, some [("name", PyVal.str "new")], some "spec1"⟩
    ∧ (loadSaved ⟨true, some [("name", PyVal.str "old")], some "spec1"⟩
         [("name", PyVal.str "new")]).softwareEnv
      ≠ some [("name", PyVal.str "old")] := by
  refine ⟨rfl, ?_⟩
  intro h
  simp [loadSaved, setSwenvFromJsonfile] at h

/-- C10 amended: once `PkgInitialized` is set, an explicit
`setup`/`_set_swenv_from_file` call is rejected: all lifecycle globals and
all installer state are left unchanged (only an error line is printed) and
no normalization or installation is performed; `load`, by contrast, is not
guarded — it replaces the `SoftwareEnv` global with the read document
(performing no normalization and no installation) regardless of the flag. -/
theorem c10_initialized_guard
    (fs : Fs) (env : Env) (pipRun : PipRun) (pkgPath : String)
    (g : GState) (fileDoc : Dict) (parentDir : String) (st : InstState)
    (hinit : g.pkgInitialized = true) :
    setSwenvFromFile fs env pipRun pkgPath g fileDoc parentDir st
      = .ok (g, { st with printed := st.printed ++ ["Error: Software Env is already initialized."] })
    ∧ ∀ (g' : GState) (jsonDoc : Dict),
        loadSaved g' jsonDoc = { g' with softwareEnv := some jsonDoc } := by
  constructor
  · simp [setSwenvFromFile, hinit, printLine]
  · intro g' jsonDoc
    rfl

/-- C10 witness: a concrete initialized state rejecting a new configuration
file. -/
theorem c10_initialized_guard_witness :
    (⟨true, some [("name", PyVal.str "old")], none⟩ : GState).pkgInitialized = true
    ∧ setSwenvFromFile ⟨[], []⟩ ⟨none, none, none, none, none⟩
        (fun _ => ((0 : Int), "")) "/pkg"
        ⟨true, some [("name", PyVal.str "old")], none⟩
        [("files", PyVal.list [.str "a.py"])] "/b"
        ⟨[.ofStr "/keep"], ["m"], [], none⟩
      = .ok (⟨true, some [("name", PyVal.str "old")], none⟩,
             ⟨[.ofStr "/keep"], ["m"],
              ["Error: Software Env is already initialized."], none⟩) :=
  ⟨rfl,
   (c10_initialized_guard ⟨[], []⟩ ⟨none, none, none, none, none⟩
      (fun _ => ((0 : Int), "")) "/pkg"
      ⟨true, some [("name", PyVal.str "old")], none⟩
      [("files", PyVal.list [.str "a.py"])] "/b"
      ⟨[.ofStr "/keep"], ["m"], [], none⟩ rfl).1⟩

end CpdSwEnv
